import Mathlib

/-!
# Verification of `libhockey/crashes.py`

A shallow embedding of the crash-retrieval client in `src/libhockey/crashes.py`:
the record types (`HockeyCrashGroup`, `HockeyCrashInstance` and their page
envelopes), the signature-based equality/hashing policy of `HockeyCrashGroup`,
the recursive pagination engine (`generate_groups_for_version`,
`generate_in_group`) and the eager facades (`groups_for_version`, `in_group`).

Modelling conventions:
* Python `int` is `Int`, Python `str` is `String`, `Optional[T]` is `Option T`.
* Python's `str(x)` applied to an `Optional[str]` is `pyStr` (`str(None)` is the
  string `"None"`, `str(s)` is `s` for a string `s`).
* Python's built-in `hash` of a string is deterministic within a process but
  not injective; it is modelled as an arbitrary parameter
  `pyHash : String → Int`, and every theorem about equality/hashing is stated
  for all such functions.  Witnesses instantiate `examplePyHash`, a concrete
  polynomial string hash.
* The HTTP collaborator (`self.get`, from the repository's `derived_client`,
  not under `src/`) together with `response.json()` and
  `deserialize.deserialize` is modelled as a page-indexed fixture
  (`fetchPage`): a list whose `p`-th entry is either a decoded envelope or the
  `RequestFailed`/`DecodeError` failure raised for page `p`.  The engine
  records every request it issues (URL and `retry_count`) in the run result.
-/

/-- Python `str` applied to an `Optional[str]` value: `str(None) = "None"`,
`str(s) = s`. -/
def pyStr : Option String → String
  | none => "None"
  | some s => s

/-- Record `HockeyCrashGroup` (crashes.py lines 20–42): one aggregated crash
signature for an app version.  Field names and order follow the source class
body; the `@deserialize.key` renames are applied in `decodeCrashGroup`. -/
structure HockeyCrashGroup where
  identifier : Int
  app_id : Int
  created_at : String
  updated_at : String
  status : Int
  reason : Option String
  last_crash_at : String
  exception_type : Option String
  fixed : Bool
  app_version_id : Int
  bundle_version : String
  bundle_short_version : String
  number_of_crashes : Int
  grouping_hash : String
  grouping_type : Int
  pattern : Option String
  crash_method : Option String
  crash_file : Option String
  crash_class : Option String
  crash_line : Option String
deriving DecidableEq

/-- Method `HockeyCrashGroup.url` (crashes.py lines 44–50): the management-page URL
for the crash group. -/
def HockeyCrashGroup.url (g : HockeyCrashGroup) : String :=
  "https://rink.hockeyapp.net/manage/apps/" ++ toString g.app_id ++ "/app_versions/" ++
    toString g.app_version_id ++ "/crash_reasons/" ++ toString g.identifier

/-- Method `HockeyCrashGroup.__hash__` (crashes.py lines 68–83), inner part:
the string `"-".join(map(str, [exception_type, reason, crash_method,
crash_file, crash_class]))` to which Python's built-in `hash` is applied. -/
def HockeyCrashGroup.hashStr (g : HockeyCrashGroup) : String :=
  pyStr g.exception_type ++ "-" ++ pyStr g.reason ++ "-" ++ pyStr g.crash_method ++ "-" ++
    pyStr g.crash_file ++ "-" ++ pyStr g.crash_class

/-- Method `HockeyCrashGroup.__hash__` (crashes.py lines 68–83): Python
returns `hash` of the joined string.  The built-in `hash` is deterministic
within a process but not injective, so it is kept abstract as a parameter
`pyHash : String → Int`. -/
def HockeyCrashGroup.hashVal (pyHash : String → Int) (g : HockeyCrashGroup) : Int :=
  pyHash g.hashStr

/-- A Python runtime value, as far as `HockeyCrashGroup.__eq__`'s
`isinstance` test can observe it: either a `HockeyCrashGroup` or some value of
another type. -/
inductive PyObject where
  | crashGroup (g : HockeyCrashGroup)
  | intVal (n : Int)
  | strVal (s : String)
  | noneVal
deriving DecidableEq

/-- Method `HockeyCrashGroup.__eq__` restricted to two crash groups (the branch after
the `isinstance` check, crashes.py line 96): `self.__hash__() ==
other.__hash__()`, for the process's hash function `pyHash`. -/
def HockeyCrashGroup.beq (pyHash : String → Int) (g other : HockeyCrashGroup) : Bool :=
  g.hashVal pyHash == other.hashVal pyHash

/-- Method `HockeyCrashGroup.__eq__` (crashes.py lines 85–96) on an arbitrary Python
value: `False` whenever `other` is not a `HockeyCrashGroup`, otherwise hash
comparison.  Total by construction (no exception is raised). -/
def HockeyCrashGroup.eqPy (pyHash : String → Int) (g : HockeyCrashGroup)
    (other : PyObject) : Bool :=
  match other with
  | .crashGroup g2 => g.beq pyHash g2
  | _ => false

/-- Record `HockeyCrashInstance` (crashes.py lines 111–129): one concrete crash
occurrence inside a group. -/
structure HockeyCrashInstance where
  identifier : Int
  app_id : Int
  crash_reason_id : Int
  created_at : String
  updated_at : String
  oem : String
  model : String
  os_version : String
  jail_break : Bool
  contact_string : String
  user_string : String
  has_log : Bool
  has_description : Bool
  app_version_id : Int
  bundle_version : String
  bundle_short_version : String
deriving DecidableEq

/-- Record `HockeyCrashGroupsResponse` (crashes.py lines 99–107): the page envelope
for crash groups. -/
structure HockeyCrashGroupsResponse where
  crash_reasons : List HockeyCrashGroup
  status : String
  current_page : Int
  per_page : Int
  total_entries : Int
  total_pages : Int
deriving DecidableEq

/-- Record `HockeyCrashesResponse` (crashes.py lines 132–141): the page envelope for
crash instances in a group. -/
structure HockeyCrashesResponse where
  crash_reason : HockeyCrashGroup
  crashes : List HockeyCrashInstance
  status : String
  current_page : Int
  per_page : Int
  total_entries : Int
  total_pages : Int
deriving DecidableEq

/-- A raw JSON record for a crash group, with the wire-side key names declared
by the `@deserialize.key` decorators (crashes.py lines 15–19): `id`, `method`,
`file`, `class`, `line`; every other field travels under its own name. -/
structure RawCrashGroupRecord where
  id : Int
  app_id : Int
  created_at : String
  updated_at : String
  status : Int
  reason : Option String
  last_crash_at : String
  exception_type : Option String
  fixed : Bool
  app_version_id : Int
  bundle_version : String
  bundle_short_version : String
  number_of_crashes : Int
  grouping_hash : String
  grouping_type : Int
  pattern : Option String
  method : Option String
  file : Option String
  «class» : Option String
  line : Option String
deriving DecidableEq

/-- Modelled from the spec: the external `deserialize` library's decode of a
raw JSON record into a `HockeyCrashGroup`, applying the field renames declared
by the `@deserialize.key` decorators in the source (`id` → `identifier`,
`method` → `crash_method`, `file` → `crash_file`, `class` → `crash_class`,
`line` → `crash_line`); all remaining fields are read under their own names. -/
def decodeCrashGroup (r : RawCrashGroupRecord) : HockeyCrashGroup where
  identifier := r.id
  app_id := r.app_id
  created_at := r.created_at
  updated_at := r.updated_at
  status := r.status
  reason := r.reason
  last_crash_at := r.last_crash_at
  exception_type := r.exception_type
  fixed := r.fixed
  app_version_id := r.app_version_id
  bundle_version := r.bundle_version
  bundle_short_version := r.bundle_short_version
  number_of_crashes := r.number_of_crashes
  grouping_hash := r.grouping_hash
  grouping_type := r.grouping_type
  pattern := r.pattern
  crash_method := r.method
  crash_file := r.file
  crash_class := r.«class»
  crash_line := r.line

/-- One error from the spec's failure taxonomy: `RequestFailed` (transport /
HTTP-status failure after retries are exhausted) or `DecodeError` (envelope
shape mismatch). -/
inductive FetchError where
  | requestFailed (code : Int)
  | decodeError (msg : String)
deriving DecidableEq

/-- One HTTP request as issued through the collaborator: the URL and the
`retry_count` passed to `self.get`. -/
structure Request where
  url : String
  retry_count : Nat
deriving DecidableEq

/-- The observable outcome of running one of the generators: the items it
yielded before terminating or aborting, the error it aborted with (if any),
and the requests it issued, in order. -/
structure RunResult (α : Type) where
  items : List α
  err : Option FetchError
  requests : List Request
deriving DecidableEq

/-- A server fixture for one paginated resource: entry `p - 1` is the decoded
envelope for page `p`, or the error raised while fetching/decoding page `p`.
Asking for a page beyond the fixture fails like an exhausted transport. -/
def fetchPage {ε : Type} (server : List (Except FetchError ε)) (page : Nat) :
    Except FetchError ε :=
  match server.get? (page - 1) with
  | some r => r
  | none => .error (.requestFailed 404)

/-- The `request_url` built by `generate_groups_for_version`
(crashes.py lines 169–170). -/
def groups_request_url (api_base app_id : String) (app_version_id : Int) (page : Nat) :
    String :=
  api_base ++ "/" ++ app_id ++ "/app_versions/" ++ toString app_version_id ++ "/" ++
    "crash_reasons?per_page=100&order=desc&page=" ++ toString page

/-- The `request_url` built by `generate_in_group` (crashes.py lines 224–225). -/
def crashes_request_url (api_base app_id : String) (app_version_id crash_group_id : Int)
    (page : Nat) : String :=
  api_base ++ "/" ++ app_id ++ "/app_versions/" ++ toString app_version_id ++ "/crash_reasons/" ++
    toString crash_group_id ++ "?per_page=100&order=desc&page=" ++ toString page

/-- Method `HockeyCrashesClient.generate_groups_for_version` (crashes.py lines
154–186): fetch `page` with `retry_count=3`, decode a
`HockeyCrashGroupsResponse`, yield its `crash_reasons`, and recurse to
`page + 1` when the envelope's `total_pages > page`.  An exception from the
fetch/decode aborts the generator: nothing from this page is yielded. -/
def generate_groups_for_version (api_base : String)
    (server : List (Except FetchError HockeyCrashGroupsResponse))
    (app_id : String) (app_version_id : Int) (page : Nat := 1) :
    RunResult HockeyCrashGroup :=
  let request_url := groups_request_url api_base app_id app_version_id page
  match h : fetchPage server page with
  | .error e => ⟨[], some e, [⟨request_url, 3⟩]⟩
  | .ok crash_reasons_response =>
    let reasons := crash_reasons_response.crash_reasons
    if crash_reasons_response.total_pages > (page : Int) then
      let rest := generate_groups_for_version api_base server app_id app_version_id (page + 1)
      ⟨reasons ++ rest.items, rest.err, ⟨request_url, 3⟩ :: rest.requests⟩
    else
      ⟨reasons, none, [⟨request_url, 3⟩]⟩
termination_by server.length + 1 - page
decreasing_by
  have hlt : page - 1 < server.length := by
    by_contra hge
    unfold fetchPage at h
    rw [List.get?_eq_none.2 (Nat.le_of_not_lt hge)] at h
    exact Except.noConfusion h
  omega

/-- Method `HockeyCrashesClient.generate_in_group` (crashes.py lines 210–236): the
same engine for crash instances, decoding `HockeyCrashesResponse` envelopes
and yielding their `crashes`. -/
def generate_in_group (api_base : String)
    (server : List (Except FetchError HockeyCrashesResponse))
    (app_id : String) (app_version_id crash_group_id : Int) (page : Nat := 1) :
    RunResult HockeyCrashInstance :=
  let request_url := crashes_request_url api_base app_id app_version_id crash_group_id page
  match h : fetchPage server page with
  | .error e => ⟨[], some e, [⟨request_url, 3⟩]⟩
  | .ok crashes_response =>
    let crashes := crashes_response.crashes
    if crashes_response.total_pages > (page : Int) then
      let rest := generate_in_group api_base server app_id app_version_id crash_group_id (page + 1)
      ⟨crashes ++ rest.items, rest.err, ⟨request_url, 3⟩ :: rest.requests⟩
    else
      ⟨crashes, none, [⟨request_url, 3⟩]⟩
termination_by server.length + 1 - page
decreasing_by
  have hlt : page - 1 < server.length := by
    by_contra hge
    unfold fetchPage at h
    rw [List.get?_eq_none.2 (Nat.le_of_not_lt hge)] at h
    exact Except.noConfusion h
  omega

/-- The consumer side of the `for` loop in `groups_for_version`
(crashes.py lines 200–206): append the pulled items of the current page one at
a time to `groups`, breaking as soon as `max_count is not None and
len(groups) >= max_count`.  Returns the new accumulator and whether the loop
broke (abandoning the suspended generator). -/
def takeUntilCount {α : Type} (max_count : Option Nat) :
    List α → List α → List α × Bool
  | groups, [] => (groups, false)
  | groups, x :: xs =>
    let groups2 := groups ++ [x]
    match max_count with
    | some k => if k ≤ groups2.length then (groups2, true) else takeUntilCount (some k) groups2 xs
    | none => takeUntilCount none groups2 xs

/-- The interaction of `groups_for_version`'s `for` loop with the suspended
generator, one page at a time: fetch the page (the generator resumes and
fetches only when the consumer pulls past the page's last item), feed its
items to the loop body, stop if the loop broke, otherwise let the generator
continue to `page + 1` exactly when `total_pages > page`.  A fetch error
propagates out of the loop, discarding the accumulator. -/
def groups_for_version_loop (api_base : String)
    (server : List (Except FetchError HockeyCrashGroupsResponse))
    (app_id : String) (app_version_id : Int) (max_count : Option Nat)
    (page : Nat) (groups : List HockeyCrashGroup) :
    Except FetchError (List HockeyCrashGroup) × List Request :=
  let request_url := groups_request_url api_base app_id app_version_id page
  match h : fetchPage server page with
  | .error e => (.error e, [⟨request_url, 3⟩])
  | .ok crash_reasons_response =>
    let fed := takeUntilCount max_count groups crash_reasons_response.crash_reasons
    if fed.2 then (.ok fed.1, [⟨request_url, 3⟩])
    else if crash_reasons_response.total_pages > (page : Int) then
      let rest := groups_for_version_loop api_base server app_id app_version_id max_count
        (page + 1) fed.1
      (rest.1, ⟨request_url, 3⟩ :: rest.2)
    else (.ok fed.1, [⟨request_url, 3⟩])
termination_by server.length + 1 - page
decreasing_by
  have hlt : page - 1 < server.length := by
    by_contra hge
    unfold fetchPage at h
    rw [List.get?_eq_none.2 (Nat.le_of_not_lt hge)] at h
    exact Except.noConfusion h
  omega

/-- Method `HockeyCrashesClient.groups_for_version` (crashes.py lines 188–208): the
eager facade over `generate_groups_for_version`, with the optional
`max_count` early stop. -/
def groups_for_version (api_base : String)
    (server : List (Except FetchError HockeyCrashGroupsResponse))
    (app_id : String) (app_version_id : Int) (max_count : Option Nat := none) :
    Except FetchError (List HockeyCrashGroup) × List Request :=
  groups_for_version_loop api_base server app_id app_version_id max_count 1 []

/-- Method `HockeyCrashesClient.in_group` (crashes.py lines 238–250):
`list(self.generate_in_group(...))` — consume the generator to exhaustion; an
error raised mid-way propagates and the partial list is discarded. -/
def in_group (api_base : String)
    (server : List (Except FetchError HockeyCrashesResponse))
    (app_id : String) (app_version_id crash_group_id : Int) :
    Except FetchError (List HockeyCrashInstance) × List Request :=
  let run := generate_in_group api_base server app_id app_version_id crash_group_id 1
  (match run.err with
   | some e => .error e
   | none => .ok run.items, run.requests)

/-- The per-page item counts seen by a run of `generate_groups_for_version`
starting at `page`: one entry per successfully fetched page, in fetch order. -/
def groupsPageItemCounts (server : List (Except FetchError HockeyCrashGroupsResponse))
    (page : Nat) : List Nat :=
  match h : fetchPage server page with
  | .error _ => []
  | .ok crash_reasons_response =>
    crash_reasons_response.crash_reasons.length ::
      (if crash_reasons_response.total_pages > (page : Int) then
        groupsPageItemCounts server (page + 1)
      else [])
termination_by server.length + 1 - page
decreasing_by
  have hlt : page - 1 < server.length := by
    by_contra hge
    unfold fetchPage at h
    rw [List.get?_eq_none.2 (Nat.le_of_not_lt hge)] at h
    exact Except.noConfusion h
  omega

/-- The number of pages a consumer must fetch to see `k` items, given the
per-page item counts: the least `m` with `counts[0] + ⋯ + counts[m-1] ≥ k`,
or all pages when fewer than `k` items exist in total (assuming `1 ≤ k`). -/
def pagesNeeded (counts : List Nat) (k : Nat) : Nat :=
  match counts with
  | [] => 0
  | c :: rest => if k ≤ c then 1 else 1 + pagesNeeded rest (k - c)

/-! ### Concrete fixtures

Small concrete records and server fixtures used by the witness and
counterexample theorems below. -/

/-- A concrete stand-in for the process's string hash, used to instantiate
witnesses: a base-31 polynomial hash of the character codes, modulo the prime
2147483647.  (Any deterministic function works; the theorems quantify over
all of them.) -/
def examplePyHash (s : String) : Int :=
  s.data.foldl (fun h c => (h * 31 + (c.toNat : Int)) % 2147483647) 7

def exampleGroup : HockeyCrashGroup where
  identifier := 1
  app_id := 10
  created_at := "2019-01-01"
  updated_at := "2019-01-02"
  status := 0
  reason := some "Object reference not set"
  last_crash_at := "2019-01-03"
  exception_type := some "System.NullReferenceException"
  fixed := false
  app_version_id := 5
  bundle_version := "123"
  bundle_short_version := "1.2.3"
  number_of_crashes := 7
  grouping_hash := "abc"
  grouping_type := 0
  pattern := none
  crash_method := some "Main"
  crash_file := some "Program.cs"
  crash_class := some "Program"
  crash_line := some "42"

/-- Same five signature fields as `exampleGroup`, different identifier, count
and timestamps. -/
def exampleGroup3 : HockeyCrashGroup :=
  { exampleGroup with
      identifier := 3
      number_of_crashes := 99
      created_at := "2020-05-05" }

/-- A second, genuinely different signature. -/
def exampleGroup2 : HockeyCrashGroup :=
  { exampleGroup with
      identifier := 2
      reason := some "I/O failure"
      exception_type := some "System.IO.IOException" }

/-- Variant whose `exception_type` is the Python value `None`. -/
def exampleGroupNoneField : HockeyCrashGroup := { exampleGroup with exception_type := none }

/-- Variant whose `exception_type` is the Python string `"None"`. -/
def exampleGroupNoneStr : HockeyCrashGroup :=
  { exampleGroup with identifier := 4, exception_type := some "None" }

/-- Dash-boundary pair: `("a", "b-c")` renders the same joined signature
string as `("a-b", "c")`. -/
def exampleGroupDashA : HockeyCrashGroup :=
  { exampleGroup with exception_type := some "a", reason := some "b-c" }

def exampleGroupDashB : HockeyCrashGroup :=
  { exampleGroup with
      identifier := 6
      exception_type := some "a-b"
      reason := some "c" }

def examplePage1 : HockeyCrashGroupsResponse where
  crash_reasons := [exampleGroup, exampleGroup2]
  status := "success"
  current_page := 1
  per_page := 100
  total_entries := 3
  total_pages := 2

def examplePage2 : HockeyCrashGroupsResponse where
  crash_reasons := [exampleGroup3]
  status := "success"
  current_page := 2
  per_page := 100
  total_entries := 3
  total_pages := 2

def exampleSinglePage : HockeyCrashGroupsResponse where
  crash_reasons := [exampleGroup]
  status := "success"
  current_page := 1
  per_page := 100
  total_entries := 1
  total_pages := 1

def exampleGroupsServer : List (Except FetchError HockeyCrashGroupsResponse) :=
  [.ok examplePage1, .ok examplePage2]

def exampleSingleServer : List (Except FetchError HockeyCrashGroupsResponse) :=
  [.ok exampleSinglePage]

def exampleFailingGroupsServer : List (Except FetchError HockeyCrashGroupsResponse) :=
  [.ok examplePage1, .error (.requestFailed 500)]

def exampleInstance : HockeyCrashInstance where
  identifier := 100
  app_id := 10
  crash_reason_id := 1
  created_at := "2019-01-01"
  updated_at := "2019-01-02"
  oem := "Apple"
  model := "iPhone11,2"
  os_version := "12.0"
  jail_break := false
  contact_string := "contact"
  user_string := "user"
  has_log := true
  has_description := false
  app_version_id := 5
  bundle_version := "123"
  bundle_short_version := "1.2.3"

def exampleInstance2 : HockeyCrashInstance := { exampleInstance with identifier := 101 }

def exampleInstance3 : HockeyCrashInstance := { exampleInstance with identifier := 102 }

def exampleCrashPage1 : HockeyCrashesResponse where
  crash_reason := exampleGroup
  crashes := [exampleInstance, exampleInstance2]
  status := "success"
  current_page := 1
  per_page := 100
  total_entries := 3
  total_pages := 2

def exampleCrashPage2 : HockeyCrashesResponse where
  crash_reason := exampleGroup
  crashes := [exampleInstance3]
  status := "success"
  current_page := 2
  per_page := 100
  total_entries := 3
  total_pages := 2

def exampleCrashesServer : List (Except FetchError HockeyCrashesResponse) :=
  [.ok exampleCrashPage1, .ok exampleCrashPage2]

def exampleFailingCrashesServer : List (Except FetchError HockeyCrashesResponse) :=
  [.ok exampleCrashPage1, .error (.decodeError "shape mismatch")]

/-! ## Helper lemmas -/

theorem fetchPage_ok_lt {ε : Type} {server : List (Except FetchError ε)} {page : Nat}
    {r : ε} (h : fetchPage server page = .ok r) : page - 1 < server.length := by
  by_contra hge
  unfold fetchPage at h
  rw [List.get?_eq_none.2 (Nat.le_of_not_lt hge)] at h
  exact Except.noConfusion h

theorem fetchPage_map_ok {ε : Type} (pages : List ε) (page : Nat)
    (h : page - 1 < pages.length) :
    fetchPage (pages.map Except.ok) page = .ok (pages.get ⟨page - 1, h⟩) := by
  unfold fetchPage
  rw [List.get?_map, List.get?_eq_get h]
  rfl

theorem takeUntilCount_none {α : Type} (acc xs : List α) :
    takeUntilCount none acc xs = (acc ++ xs, false) := by
  induction xs generalizing acc with
  | nil => simp [takeUntilCount]
  | cons x xs ih => simp [takeUntilCount, ih]

theorem takeUntilCount_some {α : Type} (k : Nat) (acc xs : List α)
    (hacc : acc.length < k) :
    takeUntilCount (some k) acc xs =
      (acc ++ xs.take (k - acc.length), decide (k ≤ acc.length + xs.length)) := by
  induction xs generalizing acc with
  | nil =>
    show (acc, false) = _
    rw [List.take_nil, List.append_nil, decide_eq_false (by simp; omega)]
  | cons x xs ih =>
    show (if k ≤ (acc ++ [x]).length then (acc ++ [x], true)
          else takeUntilCount (some k) (acc ++ [x]) xs) = _
    by_cases hk : k ≤ (acc ++ [x]).length
    · rw [if_pos hk]
      have hke : k = acc.length + 1 := by simp at hk; omega
      have ht : (x :: xs).take (k - acc.length) = [x] := by
        have h1 : k - acc.length = 1 := by omega
        rw [h1]; rfl
      rw [ht, decide_eq_true (by simp; omega)]
    · rw [if_neg hk]
      have hacc2 : (acc ++ [x]).length < k := by simp at hk ⊢; omega
      rw [ih _ hacc2]
      have h2 : (x :: xs).take (k - acc.length) = x :: xs.take (k - (acc ++ [x]).length) := by
        have hgt : k - acc.length = (k - (acc ++ [x]).length) + 1 := by simp; omega
        rw [hgt]; rfl
      rw [h2]
      simp only [Prod.mk.injEq]
      constructor
      · simp [List.append_assoc]
      · rw [decide_eq_decide]
        simp
        omega

/-! ### Step lemmas for `generate_groups_for_version` -/

theorem gen_groups_error {api_base : String}
    {server : List (Except FetchError HockeyCrashGroupsResponse)}
    {app_id : String} {app_version_id : Int} {page : Nat} {e : FetchError}
    (h : fetchPage server page = .error e) :
    generate_groups_for_version api_base server app_id app_version_id page =
      ⟨[], some e, [⟨groups_request_url api_base app_id app_version_id page, 3⟩]⟩ := by
  unfold generate_groups_for_version
  split
  case _ e2 h2 => rw [h] at h2; cases h2; rfl
  case _ resp h2 => rw [h] at h2; exact Except.noConfusion h2

theorem gen_groups_continue {api_base : String}
    {server : List (Except FetchError HockeyCrashGroupsResponse)}
    {app_id : String} {app_version_id : Int} {page : Nat}
    {resp : HockeyCrashGroupsResponse}
    (h : fetchPage server page = .ok resp) (hc : resp.total_pages > (page : Int)) :
    generate_groups_for_version api_base server app_id app_version_id page =
      ⟨resp.crash_reasons ++
          (generate_groups_for_version api_base server app_id app_version_id (page + 1)).items,
        (generate_groups_for_version api_base server app_id app_version_id (page + 1)).err,
        ⟨groups_request_url api_base app_id app_version_id page, 3⟩ ::
          (generate_groups_for_version api_base server app_id app_version_id (page + 1)).requests⟩ := by
  conv_lhs => unfold generate_groups_for_version
  split
  case _ e2 h2 => rw [h] at h2; exact Except.noConfusion h2
  case _ resp2 h2 =>
    rw [h] at h2
    cases h2
    rw [if_pos hc]

theorem gen_groups_stop {api_base : String}
    {server : List (Except FetchError HockeyCrashGroupsResponse)}
    {app_id : String} {app_version_id : Int} {page : Nat}
    {resp : HockeyCrashGroupsResponse}
    (h : fetchPage server page = .ok resp) (hc : ¬ resp.total_pages > (page : Int)) :
    generate_groups_for_version api_base server app_id app_version_id page =
      ⟨resp.crash_reasons, none, [⟨groups_request_url api_base app_id app_version_id page, 3⟩]⟩ := by
  unfold generate_groups_for_version
  split
  case _ e2 h2 => rw [h] at h2; exact Except.noConfusion h2
  case _ resp2 h2 =>
    rw [h] at h2
    cases h2
    rw [if_neg hc]

/-! ### Step lemmas for `generate_in_group` -/

theorem gen_in_group_error {api_base : String}
    {server : List (Except FetchError HockeyCrashesResponse)}
    {app_id : String} {app_version_id crash_group_id : Int} {page : Nat} {e : FetchError}
    (h : fetchPage server page = .error e) :
    generate_in_group api_base server app_id app_version_id crash_group_id page =
      ⟨[], some e,
        [⟨crashes_request_url api_base app_id app_version_id crash_group_id page, 3⟩]⟩ := by
  unfold generate_in_group
  split
  case _ e2 h2 => rw [h] at h2; cases h2; rfl
  case _ resp h2 => rw [h] at h2; exact Except.noConfusion h2

theorem gen_in_group_continue {api_base : String}
    {server : List (Except FetchError HockeyCrashesResponse)}
    {app_id : String} {app_version_id crash_group_id : Int} {page : Nat}
    {resp : HockeyCrashesResponse}
    (h : fetchPage server page = .ok resp) (hc : resp.total_pages > (page : Int)) :
    generate_in_group api_base server app_id app_version_id crash_group_id page =
      ⟨resp.crashes ++
          (generate_in_group api_base server app_id app_version_id crash_group_id
            (page + 1)).items,
        (generate_in_group api_base server app_id app_version_id crash_group_id (page + 1)).err,
        ⟨crashes_request_url api_base app_id app_version_id crash_group_id page, 3⟩ ::
          (generate_in_group api_base server app_id app_version_id crash_group_id
            (page + 1)).requests⟩ := by
  conv_lhs => unfold generate_in_group
  split
  case _ e2 h2 => rw [h] at h2; exact Except.noConfusion h2
  case _ resp2 h2 =>
    rw [h] at h2
    cases h2
    rw [if_pos hc]

theorem gen_in_group_stop {api_base : String}
    {server : List (Except FetchError HockeyCrashesResponse)}
    {app_id : String} {app_version_id crash_group_id : Int} {page : Nat}
    {resp : HockeyCrashesResponse}
    (h : fetchPage server page = .ok resp) (hc : ¬ resp.total_pages > (page : Int)) :
    generate_in_group api_base server app_id app_version_id crash_group_id page =
      ⟨resp.crashes, none,
        [⟨crashes_request_url api_base app_id app_version_id crash_group_id page, 3⟩]⟩ := by
  unfold generate_in_group
  split
  case _ e2 h2 => rw [h] at h2; exact Except.noConfusion h2
  case _ resp2 h2 =>
    rw [h] at h2
    cases h2
    rw [if_neg hc]

/-! ### Step lemmas for `groups_for_version_loop` and `groupsPageItemCounts` -/

theorem groups_loop_error {api_base : String}
    {server : List (Except FetchError HockeyCrashGroupsResponse)}
    {app_id : String} {app_version_id : Int} {mc : Option Nat} {page : Nat}
    {groups : List HockeyCrashGroup} {e : FetchError}
    (h : fetchPage server page = .error e) :
    groups_for_version_loop api_base server app_id app_version_id mc page groups =
      (.error e, [⟨groups_request_url api_base app_id app_version_id page, 3⟩]) := by
  unfold groups_for_version_loop
  split
  case _ e2 h2 => rw [h] at h2; cases h2; rfl
  case _ resp h2 => rw [h] at h2; exact Except.noConfusion h2

theorem groups_loop_broke {api_base : String}
    {server : List (Except FetchError HockeyCrashGroupsResponse)}
    {app_id : String} {app_version_id : Int} {mc : Option Nat} {page : Nat}
    {groups : List HockeyCrashGroup} {resp : HockeyCrashGroupsResponse}
    (h : fetchPage server page = .ok resp)
    (hb : (takeUntilCount mc groups resp.crash_reasons).2 = true) :
    groups_for_version_loop api_base server app_id app_version_id mc page groups =
      (.ok (takeUntilCount mc groups resp.crash_reasons).1,
       [⟨groups_request_url api_base app_id app_version_id page, 3⟩]) := by
  unfold groups_for_version_loop
  split
  case _ e2 h2 => rw [h] at h2; exact Except.noConfusion h2
  case _ resp2 h2 =>
    rw [h] at h2
    cases h2
    simp [hb]

theorem groups_loop_continue {api_base : String}
    {server : List (Except FetchError HockeyCrashGroupsResponse)}
    {app_id : String} {app_version_id : Int} {mc : Option Nat} {page : Nat}
    {groups : List HockeyCrashGroup} {resp : HockeyCrashGroupsResponse}
    (h : fetchPage server page = .ok resp)
    (hb : (takeUntilCount mc groups resp.crash_reasons).2 = false)
    (hc : resp.total_pages > (page : Int)) :
    groups_for_version_loop api_base server app_id app_version_id mc page groups =
      ((groups_for_version_loop api_base server app_id app_version_id mc (page + 1)
          (takeUntilCount mc groups resp.crash_reasons).1).1,
       ⟨groups_request_url api_base app_id app_version_id page, 3⟩ ::
         (groups_for_version_loop api_base server app_id app_version_id mc (page + 1)
            (takeUntilCount mc groups resp.crash_reasons).1).2) := by
  conv_lhs => unfold groups_for_version_loop
  split
  case _ e2 h2 => rw [h] at h2; exact Except.noConfusion h2
  case _ resp2 h2 =>
    rw [h] at h2
    cases h2
    simp [hb, hc]

theorem groups_loop_stop {api_base : String}
    {server : List (Except FetchError HockeyCrashGroupsResponse)}
    {app_id : String} {app_version_id : Int} {mc : Option Nat} {page : Nat}
    {groups : List HockeyCrashGroup} {resp : HockeyCrashGroupsResponse}
    (h : fetchPage server page = .ok resp)
    (hb : (takeUntilCount mc groups resp.crash_reasons).2 = false)
    (hc : ¬ resp.total_pages > (page : Int)) :
    groups_for_version_loop api_base server app_id app_version_id mc page groups =
      (.ok (takeUntilCount mc groups resp.crash_reasons).1,
       [⟨groups_request_url api_base app_id app_version_id page, 3⟩]) := by
  unfold groups_for_version_loop
  split
  case _ e2 h2 => rw [h] at h2; exact Except.noConfusion h2
  case _ resp2 h2 =>
    rw [h] at h2
    cases h2
    simp [hb, hc]

theorem counts_error {server : List (Except FetchError HockeyCrashGroupsResponse)}
    {page : Nat} {e : FetchError} (h : fetchPage server page = .error e) :
    groupsPageItemCounts server page = [] := by
  unfold groupsPageItemCounts
  split
  case _ e2 h2 => rfl
  case _ resp h2 => rw [h] at h2; exact Except.noConfusion h2

theorem counts_continue {server : List (Except FetchError HockeyCrashGroupsResponse)}
    {page : Nat} {resp : HockeyCrashGroupsResponse}
    (h : fetchPage server page = .ok resp) (hc : resp.total_pages > (page : Int)) :
    groupsPageItemCounts server page =
      resp.crash_reasons.length :: groupsPageItemCounts server (page + 1) := by
  conv_lhs => unfold groupsPageItemCounts
  split
  case _ e2 h2 => rw [h] at h2; exact Except.noConfusion h2
  case _ resp2 h2 =>
    rw [h] at h2
    cases h2
    rw [if_pos hc]

theorem counts_stop {server : List (Except FetchError HockeyCrashGroupsResponse)}
    {page : Nat} {resp : HockeyCrashGroupsResponse}
    (h : fetchPage server page = .ok resp) (hc : ¬ resp.total_pages > (page : Int)) :
    groupsPageItemCounts server page = [resp.crash_reasons.length] := by
  unfold groupsPageItemCounts
  split
  case _ e2 h2 => rw [h] at h2; exact Except.noConfusion h2
  case _ resp2 h2 =>
    rw [h] at h2
    cases h2
    rw [if_neg hc]

/-! ### The eager loop with `max_count = none` replays the generator -/

theorem groups_loop_none (api_base : String)
    (server : List (Except FetchError HockeyCrashGroupsResponse))
    (app_id : String) (app_version_id : Int) (page : Nat) (acc : List HockeyCrashGroup) :
    groups_for_version_loop api_base server app_id app_version_id none page acc =
      ((match (generate_groups_for_version api_base server app_id app_version_id page).err with
        | some e => Except.error e
        | none =>
            Except.ok (acc ++
              (generate_groups_for_version api_base server app_id app_version_id page).items)),
       (generate_groups_for_version api_base server app_id app_version_id page).requests) := by
  cases hf : fetchPage server page with
  | error e =>
    rw [groups_loop_error hf, gen_groups_error hf]
  | ok resp =>
    have hlt : page - 1 < server.length := fetchPage_ok_lt hf
    have hfed := takeUntilCount_none acc resp.crash_reasons
    by_cases hc : resp.total_pages > (page : Int)
    · rw [groups_loop_continue hf (by rw [hfed]) hc, gen_groups_continue hf hc]
      simp only [hfed]
      rw [groups_loop_none api_base server app_id app_version_id (page + 1)
        (acc ++ resp.crash_reasons)]
      cases herr : (generate_groups_for_version api_base server app_id app_version_id
          (page + 1)).err with
      | none => simp [List.append_assoc]
      | some e => simp
    · rw [groups_loop_stop hf (by rw [hfed]) hc, gen_groups_stop hf hc]
      simp [hfed]
termination_by server.length + 1 - page
decreasing_by omega

/-! ### Request traces -/

theorem gen_groups_requests_shape (api_base : String)
    (server : List (Except FetchError HockeyCrashGroupsResponse))
    (app_id : String) (app_version_id : Int) (page : Nat) :
    (generate_groups_for_version api_base server app_id app_version_id page).requests =
      (List.range' page
          (generate_groups_for_version api_base server app_id app_version_id
            page).requests.length).map
        (fun p => ⟨groups_request_url api_base app_id app_version_id p, 3⟩) := by
  cases hf : fetchPage server page with
  | error e => rw [gen_groups_error hf]; rfl
  | ok resp =>
    have hlt : page - 1 < server.length := fetchPage_ok_lt hf
    by_cases hc : resp.total_pages > (page : Int)
    · rw [gen_groups_continue hf hc]
      have ih := gen_groups_requests_shape api_base server app_id app_version_id (page + 1)
      show _ :: _ = _
      rw [List.length_cons,
        show List.range' page ((generate_groups_for_version api_base server app_id
            app_version_id (page + 1)).requests.length + 1) =
          page :: List.range' (page + 1)
            (generate_groups_for_version api_base server app_id app_version_id
              (page + 1)).requests.length from rfl,
        List.map_cons, ← ih]
    · rw [gen_groups_stop hf hc]; rfl
termination_by server.length + 1 - page
decreasing_by omega

theorem gen_in_group_requests_shape (api_base : String)
    (server : List (Except FetchError HockeyCrashesResponse))
    (app_id : String) (app_version_id crash_group_id : Int) (page : Nat) :
    (generate_in_group api_base server app_id app_version_id crash_group_id page).requests =
      (List.range' page
          (generate_in_group api_base server app_id app_version_id crash_group_id
            page).requests.length).map
        (fun p => ⟨crashes_request_url api_base app_id app_version_id crash_group_id p, 3⟩) := by
  cases hf : fetchPage server page with
  | error e => rw [gen_in_group_error hf]; rfl
  | ok resp =>
    have hlt : page - 1 < server.length := fetchPage_ok_lt hf
    by_cases hc : resp.total_pages > (page : Int)
    · rw [gen_in_group_continue hf hc]
      have ih := gen_in_group_requests_shape api_base server app_id app_version_id
        crash_group_id (page + 1)
      show _ :: _ = _
      rw [List.length_cons,
        show List.range' page ((generate_in_group api_base server app_id app_version_id
            crash_group_id (page + 1)).requests.length + 1) =
          page :: List.range' (page + 1)
            (generate_in_group api_base server app_id app_version_id crash_group_id
              (page + 1)).requests.length from rfl,
        List.map_cons, ← ih]
    · rw [gen_in_group_stop hf hc]; rfl
termination_by server.length + 1 - page
decreasing_by omega

/-! ### Runs over consistent fixtures -/

theorem gen_groups_consistent (api_base app_id : String) (app_version_id : Int)
    (pages : List HockeyCrashGroupsResponse)
    (hcons : ∀ resp ∈ pages, resp.total_pages = (pages.length : Int))
    (page : Nat) (h1 : 1 ≤ page) (h2 : page ≤ pages.length) :
    generate_groups_for_version api_base (pages.map Except.ok) app_id app_version_id page =
      ⟨((pages.drop (page - 1)).map HockeyCrashGroupsResponse.crash_reasons).flatten, none,
       (List.range' page (pages.length + 1 - page)).map
         (fun p => ⟨groups_request_url api_base app_id app_version_id p, 3⟩)⟩ := by
  have hlt : page - 1 < pages.length := by omega
  have hfetch := fetchPage_map_ok pages page hlt
  have hmem : pages.get ⟨page - 1, hlt⟩ ∈ pages := pages.get_mem _ hlt
  have htp : (pages.get ⟨page - 1, hlt⟩).total_pages = (pages.length : Int) :=
    hcons _ hmem
  have hdrop : pages.drop (page - 1) =
      pages.get ⟨page - 1, hlt⟩ :: pages.drop page := by
    have hpp : page - 1 + 1 = page := by omega
    rw [List.drop_eq_getElem_cons hlt, hpp, List.get_eq_getElem]
  by_cases hc : page < pages.length
  · have hcc : (pages.get ⟨page - 1, hlt⟩).total_pages > (page : Int) := by
      rw [htp]; exact_mod_cast hc
    rw [gen_groups_continue hfetch hcc,
      gen_groups_consistent api_base app_id app_version_id pages hcons (page + 1)
        (by omega) (by omega)]
    have hn : pages.length + 1 - page = (pages.length + 1 - (page + 1)) + 1 := by omega
    rw [hdrop, hn]
    have hp1 : page + 1 - 1 = page := by omega
    rw [hp1]
    rfl
  · have hpe : page = pages.length := by omega
    have hcc : ¬ (pages.get ⟨page - 1, hlt⟩).total_pages > (page : Int) := by
      rw [htp]
      simp
      exact_mod_cast Nat.le_of_eq hpe.symm
    rw [gen_groups_stop hfetch hcc, hdrop]
    have hde : pages.drop page = [] := by
      rw [List.drop_eq_nil_iff_le]
      omega
    have hn : pages.length + 1 - page = 1 := by omega
    rw [hde, hn]
    simp
termination_by pages.length + 1 - page
decreasing_by omega

theorem gen_in_group_consistent (api_base app_id : String)
    (app_version_id crash_group_id : Int)
    (pages : List HockeyCrashesResponse)
    (hcons : ∀ resp ∈ pages, resp.total_pages = (pages.length : Int))
    (page : Nat) (h1 : 1 ≤ page) (h2 : page ≤ pages.length) :
    generate_in_group api_base (pages.map Except.ok) app_id app_version_id crash_group_id
        page =
      ⟨((pages.drop (page - 1)).map HockeyCrashesResponse.crashes).flatten, none,
       (List.range' page (pages.length + 1 - page)).map
         (fun p => ⟨crashes_request_url api_base app_id app_version_id crash_group_id p, 3⟩)⟩ := by
  have hlt : page - 1 < pages.length := by omega
  have hfetch := fetchPage_map_ok pages page hlt
  have hmem : pages.get ⟨page - 1, hlt⟩ ∈ pages := pages.get_mem _ hlt
  have htp : (pages.get ⟨page - 1, hlt⟩).total_pages = (pages.length : Int) :=
    hcons _ hmem
  have hdrop : pages.drop (page - 1) =
      pages.get ⟨page - 1, hlt⟩ :: pages.drop page := by
    have hpp : page - 1 + 1 = page := by omega
    rw [List.drop_eq_getElem_cons hlt, hpp, List.get_eq_getElem]
  by_cases hc : page < pages.length
  · have hcc : (pages.get ⟨page - 1, hlt⟩).total_pages > (page : Int) := by
      rw [htp]; exact_mod_cast hc
    rw [gen_in_group_continue hfetch hcc,
      gen_in_group_consistent api_base app_id app_version_id crash_group_id pages hcons
        (page + 1) (by omega) (by omega)]
    have hn : pages.length + 1 - page = (pages.length + 1 - (page + 1)) + 1 := by omega
    rw [hdrop, hn]
    have hp1 : page + 1 - 1 = page := by omega
    rw [hp1]
    rfl
  · have hpe : page = pages.length := by omega
    have hcc : ¬ (pages.get ⟨page - 1, hlt⟩).total_pages > (page : Int) := by
      rw [htp]
      simp
      exact_mod_cast Nat.le_of_eq hpe.symm
    rw [gen_in_group_stop hfetch hcc, hdrop]
    have hde : pages.drop page = [] := by
      rw [List.drop_eq_nil_iff_le]
      omega
    have hn : pages.length + 1 - page = 1 := by omega
    rw [hde, hn]
    simp
termination_by pages.length + 1 - page
decreasing_by omega

/-! ### The eager loop with `max_count = some k` -/

theorem pagesNeeded_nil (k : Nat) : pagesNeeded [] k = 0 := rfl

theorem pagesNeeded_cons (c : Nat) (rest : List Nat) (k : Nat) :
    pagesNeeded (c :: rest) k = if k ≤ c then 1 else 1 + pagesNeeded rest (k - c) := rfl

theorem groups_loop_some (api_base : String)
    (server : List (Except FetchError HockeyCrashGroupsResponse))
    (app_id : String) (app_version_id : Int) (k page : Nat)
    (acc : List HockeyCrashGroup) (hacc : acc.length < k)
    (hok : (generate_groups_for_version api_base server app_id app_version_id page).err =
      none) :
    (groups_for_version_loop api_base server app_id app_version_id (some k) page acc).1 =
      .ok (acc ++
        (generate_groups_for_version api_base server app_id app_version_id page).items.take
          (k - acc.length)) ∧
    (groups_for_version_loop api_base server app_id app_version_id (some k) page acc).2.length =
      pagesNeeded (groupsPageItemCounts server page) (k - acc.length) := by
  cases hf : fetchPage server page with
  | error e =>
    rw [gen_groups_error hf] at hok
    exact absurd hok (by simp)
  | ok resp =>
    have hlt : page - 1 < server.length := fetchPage_ok_lt hf
    have hfed := takeUntilCount_some k acc resp.crash_reasons hacc
    by_cases hb : k ≤ acc.length + resp.crash_reasons.length
    · have hb2 : (takeUntilCount (some k) acc resp.crash_reasons).2 = true := by
        rw [hfed]
        simp [hb]
      have hfed1 : (takeUntilCount (some k) acc resp.crash_reasons).1 =
          acc ++ resp.crash_reasons.take (k - acc.length) := by
        rw [hfed]
      rw [groups_loop_broke hf hb2, hfed1]
      constructor
      · by_cases hc : resp.total_pages > (page : Int)
        · rw [gen_groups_continue hf hc]
          show _ = Except.ok (acc ++ (resp.crash_reasons ++ _).take (k - acc.length))
          rw [List.take_append_of_le_length (by omega)]
        · rw [gen_groups_stop hf hc]
      · by_cases hc : resp.total_pages > (page : Int)
        · rw [counts_continue hf hc, pagesNeeded_cons, if_pos (by omega)]
          rfl
        · rw [counts_stop hf hc, pagesNeeded_cons, if_pos (by omega)]
          rfl
    · have hb2 : (takeUntilCount (some k) acc resp.crash_reasons).2 = false := by
        rw [hfed]
        simp
        omega
      have hfed1 : (takeUntilCount (some k) acc resp.crash_reasons).1 =
          acc ++ resp.crash_reasons := by
        rw [hfed]
        show acc ++ resp.crash_reasons.take (k - acc.length) = _
        rw [List.take_all_of_le (by omega)]
      have hacc2 : (acc ++ resp.crash_reasons).length < k := by
        rw [List.length_append]
        omega
      have hidx : k - (acc ++ resp.crash_reasons).length =
          k - acc.length - resp.crash_reasons.length := by
        rw [List.length_append]
        omega
      by_cases hc : resp.total_pages > (page : Int)
      · have hok2 : (generate_groups_for_version api_base server app_id app_version_id
            (page + 1)).err = none := by
          rw [gen_groups_continue hf hc] at hok
          exact hok
        have ih := groups_loop_some api_base server app_id app_version_id k (page + 1)
          (acc ++ resp.crash_reasons) hacc2 hok2
        rw [groups_loop_continue hf hb2 hc, hfed1, gen_groups_continue hf hc,
          counts_continue hf hc]
        constructor
        · rw [ih.1, hidx]
          have hsplit : (resp.crash_reasons ++
              (generate_groups_for_version api_base server app_id app_version_id
                (page + 1)).items).take (k - acc.length) =
              resp.crash_reasons ++
                (generate_groups_for_version api_base server app_id app_version_id
                  (page + 1)).items.take (k - acc.length - resp.crash_reasons.length) := by
            rw [List.take_append_eq_append_take, List.take_all_of_le (by omega)]
          rw [hsplit, List.append_assoc]
        · show (groups_for_version_loop api_base server app_id app_version_id (some k)
              (page + 1) (acc ++ resp.crash_reasons)).2.length + 1 = _
          rw [ih.2, hidx, pagesNeeded_cons, if_neg (by omega)]
          omega
      · rw [groups_loop_stop hf hb2 hc, hfed1, gen_groups_stop hf hc, counts_stop hf hc]
        constructor
        · show Except.ok _ = Except.ok (acc ++ resp.crash_reasons.take (k - acc.length))
          rw [List.take_all_of_le (by omega)]
        · rw [pagesNeeded_cons, if_neg (by omega), pagesNeeded_nil]
          rfl
termination_by server.length + 1 - page
decreasing_by omega

/-! ## Claim theorems -/

/-- C2, counterexample: the claim "if the two records differ in any of the
five signature fields then they compare unequal" is false.
`exampleGroupNoneField` has `exception_type = None` while
`exampleGroupNoneStr` has `exception_type = "None"` — the fields differ, yet
`str` renders both as `"None"`, so the joined signature strings coincide and
`__eq__` returns `True` whatever the process's hash function is (shown here
at the concrete `examplePyHash`). -/
theorem crash_group_field_inequality_counterexample :
    exampleGroupNoneField.exception_type ≠ exampleGroupNoneStr.exception_type ∧
    exampleGroupNoneField.hashStr = exampleGroupNoneStr.hashStr ∧
    exampleGroupNoneField.beq examplePyHash exampleGroupNoneStr = true := by
  refine ⟨by decide, rfl, ?_⟩
  have hh : exampleGroupNoneField.hashStr = exampleGroupNoneStr.hashStr := rfl
  simp [HockeyCrashGroup.beq, HockeyCrashGroup.hashVal, hh]

/-- C2 (amended): for every per-process hash function and every pair of
`HockeyCrashGroup` records, if the five signature fields are pairwise equal
then the records compare equal under `__eq__` and have equal `__hash__`
values, regardless of identifier, counts or timestamps; and if the records
compare unequal then their joined stringified signatures — hence the fields —
differ.  The claimed converse ("differ in any field ⇒ unequal") fails: fields
can differ while rendering to the same joined string (`None` vs `"None"`,
dash boundaries), and even distinct joined strings are unequal only up to
hash collisions, which the program does not exclude. -/
theorem crash_group_signature_equality (pyHash : String → Int)
    (g1 g2 : HockeyCrashGroup) :
    ((g1.exception_type = g2.exception_type ∧ g1.reason = g2.reason ∧
      g1.crash_method = g2.crash_method ∧ g1.crash_file = g2.crash_file ∧
      g1.crash_class = g2.crash_class) →
      (g1.beq pyHash g2 = true ∧ g1.hashVal pyHash = g2.hashVal pyHash)) ∧
    (g1.beq pyHash g2 = false → g1.hashStr ≠ g2.hashStr) := by
  constructor
  · rintro ⟨h1, h2, h3, h4, h5⟩
    have hh : g1.hashStr = g2.hashStr := by
      unfold HockeyCrashGroup.hashStr
      rw [h1, h2, h3, h4, h5]
    have hv : g1.hashVal pyHash = g2.hashVal pyHash := by
      unfold HockeyCrashGroup.hashVal
      rw [hh]
    exact ⟨by simp [HockeyCrashGroup.beq, hv], hv⟩
  · intro hne heq
    have ht : g1.beq pyHash g2 = true := by
      simp [HockeyCrashGroup.beq, HockeyCrashGroup.hashVal, heq]
    rw [ht] at hne
    exact Bool.noConfusion hne

set_option maxRecDepth 8000 in
/-- Witness for the amended C2 at concrete inputs, under `examplePyHash`:
`exampleGroup` and `exampleGroup3` share the five signature fields (differing
in identifier, count and timestamp) and compare equal with equal hashes;
`exampleGroup` and `exampleGroup2` compare unequal, so their joined
signatures differ. -/
theorem crash_group_signature_equality_witness :
    (exampleGroup.beq examplePyHash exampleGroup3 = true ∧
      exampleGroup.hashVal examplePyHash = exampleGroup3.hashVal examplePyHash) ∧
    exampleGroup.hashStr ≠ exampleGroup2.hashStr :=
  ⟨(crash_group_signature_equality examplePyHash exampleGroup exampleGroup3).1
      ⟨by decide, by decide, by decide, by decide, by decide⟩,
   (crash_group_signature_equality examplePyHash exampleGroup exampleGroup2).2
      (by decide)⟩

/-- C8: the `deserialize` field-rename mapping — a raw record's `id`,
`method`, `file`, `class` and `line` keys populate `identifier`,
`crash_method`, `crash_file`, `crash_class` and `crash_line` of the decoded
`HockeyCrashGroup`. -/
theorem decode_field_rename (r : RawCrashGroupRecord) :
    (decodeCrashGroup r).identifier = r.id ∧
    (decodeCrashGroup r).crash_method = r.method ∧
    (decodeCrashGroup r).crash_file = r.file ∧
    (decodeCrashGroup r).crash_class = r.«class» ∧
    (decodeCrashGroup r).crash_line = r.line :=
  ⟨rfl, rfl, rfl, rfl, rfl⟩

/-- C9: `HockeyCrashGroup.__eq__` applied to any value that is not a
`HockeyCrashGroup` returns `False`; the comparison is total (the embedding is
a total function) and never raises. -/
theorem crash_group_eq_non_group (pyHash : String → Int) (g : HockeyCrashGroup)
    (x : PyObject)
    (h : ∀ g2 : HockeyCrashGroup, x ≠ PyObject.crashGroup g2) :
    g.eqPy pyHash x = false := by
  cases x with
  | crashGroup g2 => exact absurd rfl (h g2)
  | intVal n => rfl
  | strVal s => rfl
  | noneVal => rfl

/-- Witness for C9: comparing `exampleGroup` against the Python integer `3`
returns `False`. -/
theorem crash_group_eq_non_group_witness :
    exampleGroup.eqPy examplePyHash (PyObject.intVal 3) = false :=
  crash_group_eq_non_group examplePyHash exampleGroup (PyObject.intVal 3)
    (fun g2 h => PyObject.noConfusion h)

/-- C10: for every per-process hash function, equality (and hashing) of
`HockeyCrashGroup` operates on the `"-"`-joined `str` rendering of the five
signature fields: equal joined strings compare equal; a `None` field matches
the literal string `"None"` in the other record; and signatures that differ
only in where a `"-"` boundary falls inside the joined string also compare
equal. -/
theorem crash_group_eq_joined_string (pyHash : String → Int)
    (g1 g2 g3 g4 g5 g6 : HockeyCrashGroup) :
    (g1.hashStr = g2.hashStr → g1.beq pyHash g2 = true) ∧
    ((g3.exception_type = none ∧ g4.exception_type = some "None" ∧
      g3.reason = g4.reason ∧ g3.crash_method = g4.crash_method ∧
      g3.crash_file = g4.crash_file ∧ g3.crash_class = g4.crash_class) →
      g3.beq pyHash g4 = true) ∧
    (∀ s t u : String,
      (g5.exception_type = some s ∧ g5.reason = some (t ++ "-" ++ u) ∧
        g6.exception_type = some (s ++ "-" ++ t) ∧ g6.reason = some u ∧
        g5.crash_method = g6.crash_method ∧ g5.crash_file = g6.crash_file ∧
        g5.crash_class = g6.crash_class) →
      g5.beq pyHash g6 = true) := by
  refine ⟨fun h => by simp [HockeyCrashGroup.beq, HockeyCrashGroup.hashVal, h], ?_, ?_⟩
  · rintro ⟨h1, h2, h3, h4, h5, h6⟩
    have hh : g3.hashStr = g4.hashStr := by
      unfold HockeyCrashGroup.hashStr
      rw [h1, h2, h3, h4, h5, h6]
      rfl
    simp [HockeyCrashGroup.beq, HockeyCrashGroup.hashVal, hh]
  · rintro s t u ⟨h1, h2, h3, h4, h5, h6, h7⟩
    have hh : g5.hashStr = g6.hashStr := by
      unfold HockeyCrashGroup.hashStr
      rw [h1, h2, h3, h4, h5, h6, h7]
      simp [pyStr, String.append_assoc]
    simp [HockeyCrashGroup.beq, HockeyCrashGroup.hashVal, hh]

/-- Witness for C10 at concrete inputs under `examplePyHash`: the
signature-equal pair, the `None`-vs-`"None"` pair, and the dash-boundary pair
all compare equal. -/
theorem crash_group_eq_joined_string_witness :
    exampleGroup.beq examplePyHash exampleGroup3 = true ∧
    exampleGroupNoneField.beq examplePyHash exampleGroupNoneStr = true ∧
    exampleGroupDashA.beq examplePyHash exampleGroupDashB = true :=
  ⟨(crash_group_eq_joined_string examplePyHash exampleGroup exampleGroup3 exampleGroup
      exampleGroup exampleGroup exampleGroup).1 (by decide),
   (crash_group_eq_joined_string examplePyHash exampleGroup exampleGroup
      exampleGroupNoneField exampleGroupNoneStr exampleGroup exampleGroup).2.1
      ⟨by decide, by decide, by decide, by decide, by decide, by decide⟩,
   (crash_group_eq_joined_string examplePyHash exampleGroup exampleGroup exampleGroup
      exampleGroup exampleGroupDashA exampleGroupDashB).2.2 "a" "b" "c"
      ⟨by decide, by decide, by decide, by decide, by decide, by decide, by decide⟩⟩

/-- The groups request URL, reassociated into the spec's single-template
shape. -/
theorem groups_request_url_eq (api_base app_id : String) (app_version_id : Int)
    (page : Nat) :
    groups_request_url api_base app_id app_version_id page =
      api_base ++ "/" ++ app_id ++ "/app_versions/" ++ toString app_version_id ++
        "/crash_reasons?per_page=100&order=desc&page=" ++ toString page := by
  unfold groups_request_url
  rw [String.append_assoc _ "/" "crash_reasons?per_page=100&order=desc&page="]
  rfl

theorem crashes_request_url_eq (api_base app_id : String)
    (app_version_id crash_group_id : Int) (page : Nat) :
    crashes_request_url api_base app_id app_version_id crash_group_id page =
      api_base ++ "/" ++ app_id ++ "/app_versions/" ++ toString app_version_id ++
        "/crash_reasons/" ++ toString crash_group_id ++
        "?per_page=100&order=desc&page=" ++ toString page := rfl

/-- C1: the continuation rule of the pagination engine, for both collections:
after a successful fetch of page `page`, the run equals this page's items
followed by the run on `page + 1` with the same parameters exactly when the
page's own envelope reports `total_pages > page`, and stops (yielding only
this page's items, with a single request issued) otherwise.  `total_pages`
is read from the fetched page's own envelope, never cached from page 1. -/
theorem pagination_continuation_rule (api_base app_id : String)
    (app_version_id crash_group_id : Int)
    (gserver : List (Except FetchError HockeyCrashGroupsResponse))
    (cserver : List (Except FetchError HockeyCrashesResponse))
    (page : Nat) (gresp : HockeyCrashGroupsResponse) (cresp : HockeyCrashesResponse)
    (hg : fetchPage gserver page = .ok gresp)
    (hc : fetchPage cserver page = .ok cresp) :
    (gresp.total_pages > (page : Int) →
      generate_groups_for_version api_base gserver app_id app_version_id page =
        ⟨gresp.crash_reasons ++
            (generate_groups_for_version api_base gserver app_id app_version_id
              (page + 1)).items,
          (generate_groups_for_version api_base gserver app_id app_version_id (page + 1)).err,
          ⟨groups_request_url api_base app_id app_version_id page, 3⟩ ::
            (generate_groups_for_version api_base gserver app_id app_version_id
              (page + 1)).requests⟩) ∧
    (¬ gresp.total_pages > (page : Int) →
      generate_groups_for_version api_base gserver app_id app_version_id page =
        ⟨gresp.crash_reasons, none,
          [⟨groups_request_url api_base app_id app_version_id page, 3⟩]⟩) ∧
    (cresp.total_pages > (page : Int) →
      generate_in_group api_base cserver app_id app_version_id crash_group_id page =
        ⟨cresp.crashes ++
            (generate_in_group api_base cserver app_id app_version_id crash_group_id
              (page + 1)).items,
          (generate_in_group api_base cserver app_id app_version_id crash_group_id
            (page + 1)).err,
          ⟨crashes_request_url api_base app_id app_version_id crash_group_id page, 3⟩ ::
            (generate_in_group api_base cserver app_id app_version_id crash_group_id
              (page + 1)).requests⟩) ∧
    (¬ cresp.total_pages > (page : Int) →
      generate_in_group api_base cserver app_id app_version_id crash_group_id page =
        ⟨cresp.crashes, none,
          [⟨crashes_request_url api_base app_id app_version_id crash_group_id page, 3⟩]⟩) :=
  ⟨fun h => gen_groups_continue hg h, fun h => gen_groups_stop hg h,
   fun h => gen_in_group_continue hc h, fun h => gen_in_group_stop hc h⟩

/-- Witness for C1: on the two-page fixtures, page 1 reports
`total_pages = 2 > 1`, so both engines recurse to page 2 with the same
parameters. -/
theorem pagination_continuation_rule_witness :
    generate_groups_for_version "https://api" exampleGroupsServer "app" 5 1 =
      ⟨examplePage1.crash_reasons ++
          (generate_groups_for_version "https://api" exampleGroupsServer "app" 5 2).items,
        (generate_groups_for_version "https://api" exampleGroupsServer "app" 5 2).err,
        ⟨groups_request_url "https://api" "app" 5 1, 3⟩ ::
          (generate_groups_for_version "https://api" exampleGroupsServer "app" 5 2).requests⟩ ∧
    generate_in_group "https://api" exampleCrashesServer "app" 5 9 1 =
      ⟨exampleCrashPage1.crashes ++
          (generate_in_group "https://api" exampleCrashesServer "app" 5 9 2).items,
        (generate_in_group "https://api" exampleCrashesServer "app" 5 9 2).err,
        ⟨crashes_request_url "https://api" "app" 5 9 1, 3⟩ ::
          (generate_in_group "https://api" exampleCrashesServer "app" 5 9 2).requests⟩ :=
  ⟨(pagination_continuation_rule "https://api" "app" 5 9 exampleGroupsServer
      exampleCrashesServer 1 examplePage1 exampleCrashPage1 rfl rfl).1 (by decide),
   (pagination_continuation_rule "https://api" "app" 5 9 exampleGroupsServer
      exampleCrashesServer 1 examplePage1 exampleCrashPage1 rfl rfl).2.2.1 (by decide)⟩

/-- C6: every page fetch of either collection issues exactly the spec's URL —
`{api_base}/{app_id}/app_versions/{app_version_id}/crash_reasons?per_page=100&order=desc&page={p}`
for groups and
`{api_base}/{app_id}/app_versions/{app_version_id}/crash_reasons/{crash_group_id}?per_page=100&order=desc&page={p}`
for instances (fixed page size 100, descending order) — with page numbers
running consecutively from the starting page, and passes `retry_count = 3` to
the HTTP collaborator on every request. -/
theorem request_url_and_retry_shape (api_base app_id : String)
    (app_version_id crash_group_id : Int)
    (gserver : List (Except FetchError HockeyCrashGroupsResponse))
    (cserver : List (Except FetchError HockeyCrashesResponse)) (page : Nat) :
    (generate_groups_for_version api_base gserver app_id app_version_id page).requests =
      (List.range' page
          (generate_groups_for_version api_base gserver app_id app_version_id
            page).requests.length).map
        (fun p =>
          ⟨api_base ++ "/" ++ app_id ++ "/app_versions/" ++ toString app_version_id ++
            "/crash_reasons?per_page=100&order=desc&page=" ++ toString p, 3⟩) ∧
    (generate_in_group api_base cserver app_id app_version_id crash_group_id
        page).requests =
      (List.range' page
          (generate_in_group api_base cserver app_id app_version_id crash_group_id
            page).requests.length).map
        (fun p =>
          ⟨api_base ++ "/" ++ app_id ++ "/app_versions/" ++ toString app_version_id ++
            "/crash_reasons/" ++ toString crash_group_id ++
            "?per_page=100&order=desc&page=" ++ toString p, 3⟩) := by
  constructor
  · simp only [← groups_request_url_eq]
    exact gen_groups_requests_shape api_base gserver app_id app_version_id page
  · simp only [← crashes_request_url_eq]
    exact gen_in_group_requests_shape api_base cserver app_id app_version_id crash_group_id
      page

/-- C4: on fixtures whose lazy runs finish without error, the eager forms
consumed to exhaustion agree item-for-item and in order with the lazy forms:
`groups_for_version` without `max_count` returns exactly
`generate_groups_for_version`'s sequence, and `in_group` returns exactly
`generate_in_group`'s sequence. -/
theorem eager_lazy_agreement (api_base app_id : String)
    (app_version_id crash_group_id : Int)
    (gserver : List (Except FetchError HockeyCrashGroupsResponse))
    (cserver : List (Except FetchError HockeyCrashesResponse))
    (hg : (generate_groups_for_version api_base gserver app_id app_version_id 1).err = none)
    (hc : (generate_in_group api_base cserver app_id app_version_id crash_group_id 1).err =
      none) :
    (groups_for_version api_base gserver app_id app_version_id none).1 =
      .ok (generate_groups_for_version api_base gserver app_id app_version_id 1).items ∧
    (in_group api_base cserver app_id app_version_id crash_group_id).1 =
      .ok (generate_in_group api_base cserver app_id app_version_id crash_group_id 1).items := by
  constructor
  · unfold groups_for_version
    rw [groups_loop_none api_base gserver app_id app_version_id 1 [], hg]
    simp
  · simp [in_group, hc]

/-- Witness for C4 on the two-page fixtures: both lazy runs succeed and the
eager facades return exactly the lazy item sequences. -/
theorem eager_lazy_agreement_witness :
    (groups_for_version "https://api" exampleGroupsServer "app" 5 none).1 =
      .ok (generate_groups_for_version "https://api" exampleGroupsServer "app" 5 1).items ∧
    (in_group "https://api" exampleCrashesServer "app" 5 9).1 =
      .ok (generate_in_group "https://api" exampleCrashesServer "app" 5 9 1).items :=
 by
  have hf1 : fetchPage exampleGroupsServer 1 = Except.ok examplePage1 := rfl
  have hf2 : fetchPage exampleGroupsServer 2 = Except.ok examplePage2 := rfl
  have hc1 : fetchPage exampleCrashesServer 1 = Except.ok exampleCrashPage1 := rfl
  have hc2 : fetchPage exampleCrashesServer 2 = Except.ok exampleCrashPage2 := rfl
  exact eager_lazy_agreement "https://api" "app" 5 9 exampleGroupsServer exampleCrashesServer
    (by rw [gen_groups_continue hf1 (by decide), gen_groups_stop hf2 (by decide)])
    (by rw [gen_in_group_continue hc1 (by decide), gen_in_group_stop hc2 (by decide)])

/-- C7: no error is caught or downgraded.  A failed fetch/decode of a page
yields none of that page's items and aborts the lazy sequence with that very
error; successfully fetched earlier pages contribute their items before the
abort (the error of the tail is the error of the whole run); and the eager
facades re-raise the lazy run's error without returning any partial
collection. -/
theorem error_propagation (api_base app_id : String)
    (app_version_id crash_group_id : Int)
    (gserver : List (Except FetchError HockeyCrashGroupsResponse))
    (cserver : List (Except FetchError HockeyCrashesResponse))
    (q : Nat) (e : FetchError)
    (hq : fetchPage gserver q = .error e) :
    (generate_groups_for_version api_base gserver app_id app_version_id q).items = [] ∧
    (generate_groups_for_version api_base gserver app_id app_version_id q).err = some e ∧
    (∀ (p : Nat) (resp : HockeyCrashGroupsResponse),
      fetchPage gserver p = .ok resp → resp.total_pages > (p : Int) →
      (generate_groups_for_version api_base gserver app_id app_version_id p).items =
        resp.crash_reasons ++
          (generate_groups_for_version api_base gserver app_id app_version_id
            (p + 1)).items ∧
      (generate_groups_for_version api_base gserver app_id app_version_id p).err =
        (generate_groups_for_version api_base gserver app_id app_version_id (p + 1)).err) ∧
    (∀ e2 : FetchError,
      (generate_groups_for_version api_base gserver app_id app_version_id 1).err = some e2 →
      (groups_for_version api_base gserver app_id app_version_id none).1 = .error e2) ∧
    (∀ (q2 : Nat) (e2 : FetchError), fetchPage cserver q2 = .error e2 →
      (generate_in_group api_base cserver app_id app_version_id crash_group_id q2).items =
          [] ∧
      (generate_in_group api_base cserver app_id app_version_id crash_group_id q2).err =
        some e2) ∧
    (∀ e2 : FetchError,
      (generate_in_group api_base cserver app_id app_version_id crash_group_id 1).err =
        some e2 →
      (in_group api_base cserver app_id app_version_id crash_group_id).1 = .error e2) := by
  refine ⟨by rw [gen_groups_error hq], by rw [gen_groups_error hq], ?_, ?_, ?_, ?_⟩
  · intro p resp hfp hcp
    rw [gen_groups_continue hfp hcp]
    exact ⟨rfl, rfl⟩
  · intro e2 he2
    unfold groups_for_version
    rw [groups_loop_none api_base gserver app_id app_version_id 1 [], he2]
  · intro q2 e2 hq2
    rw [gen_in_group_error hq2]
    exact ⟨rfl, rfl⟩
  · intro e2 he2
    simp [in_group, he2]

/-- Witness for C7: page 2 of `exampleFailingGroupsServer` fails with
`RequestFailed 500` and page 2 of `exampleFailingCrashesServer` fails with a
decode error; the lazy runs keep page 1's items and abort with those errors,
and the eager facades return exactly those errors. -/
theorem error_propagation_witness :
    (generate_groups_for_version "https://api" exampleFailingGroupsServer "app" 5 2).items =
      [] ∧
    (generate_groups_for_version "https://api" exampleFailingGroupsServer "app" 5 2).err =
      some (.requestFailed 500) ∧
    (groups_for_version "https://api" exampleFailingGroupsServer "app" 5 none).1 =
      .error (.requestFailed 500) ∧
    (in_group "https://api" exampleFailingCrashesServer "app" 5 9).1 =
      .error (.decodeError "shape mismatch") := by
  have h := error_propagation "https://api" "app" 5 9 exampleFailingGroupsServer
    exampleFailingCrashesServer 2 (.requestFailed 500) rfl
  have hf1 : fetchPage exampleFailingGroupsServer 1 = Except.ok examplePage1 := rfl
  have hf2 : fetchPage exampleFailingGroupsServer 2 =
      Except.error (.requestFailed 500) := rfl
  have hc1 : fetchPage exampleFailingCrashesServer 1 = Except.ok exampleCrashPage1 := rfl
  have hc2 : fetchPage exampleFailingCrashesServer 2 =
      Except.error (.decodeError "shape mismatch") := rfl
  refine ⟨h.1, h.2.1, ?_, ?_⟩
  · exact h.2.2.2.1 (.requestFailed 500)
      (by rw [gen_groups_continue hf1 (by decide), gen_groups_error hf2])
  · exact h.2.2.2.2.2 (.decodeError "shape mismatch")
      (by rw [gen_in_group_continue hc1 (by decide), gen_in_group_error hc2])

/-- C5: on a nonempty fixture whose every page reports the same consistent
`total_pages` (equal to the number of declared pages), the run of either
engine terminates without error, yields exactly the items of all declared
pages (its length is the total item count), and performs exactly
`total_pages` fetch calls. -/
theorem pagination_terminates_consistent (api_base app_id : String)
    (app_version_id crash_group_id : Int)
    (gpages : List HockeyCrashGroupsResponse) (cpages : List HockeyCrashesResponse)
    (hgne : gpages ≠ [])
    (hgcons : ∀ resp ∈ gpages, resp.total_pages = (gpages.length : Int))
    (hcne : cpages ≠ [])
    (hccons : ∀ resp ∈ cpages, resp.total_pages = (cpages.length : Int)) :
    (generate_groups_for_version api_base (gpages.map Except.ok) app_id app_version_id
        1).err = none ∧
    (generate_groups_for_version api_base (gpages.map Except.ok) app_id app_version_id
        1).items.length =
      (gpages.map (fun resp => resp.crash_reasons.length)).sum ∧
    (generate_groups_for_version api_base (gpages.map Except.ok) app_id app_version_id
        1).requests.length = gpages.length ∧
    (generate_in_group api_base (cpages.map Except.ok) app_id app_version_id crash_group_id
        1).err = none ∧
    (generate_in_group api_base (cpages.map Except.ok) app_id app_version_id crash_group_id
        1).items.length =
      (cpages.map (fun resp => resp.crashes.length)).sum ∧
    (generate_in_group api_base (cpages.map Except.ok) app_id app_version_id crash_group_id
        1).requests.length = cpages.length := by
  have hg1 : 1 ≤ gpages.length := List.length_pos.2 hgne
  have hc1 : 1 ≤ cpages.length := List.length_pos.2 hcne
  have hg := gen_groups_consistent api_base app_id app_version_id gpages hgcons 1 le_rfl hg1
  have hc := gen_in_group_consistent api_base app_id app_version_id crash_group_id cpages
    hccons 1 le_rfl hc1
  rw [hg, hc]
  refine ⟨rfl, ?_, ?_, rfl, ?_, ?_⟩
  · show ((gpages.drop 0).map HockeyCrashGroupsResponse.crash_reasons).flatten.length = _
    rw [List.drop_zero, List.length_flatten, List.map_map]
    rfl
  · show ((List.range' 1 (gpages.length + 1 - 1)).map _).length = _
    rw [List.length_map, List.length_range']
    omega
  · show ((cpages.drop 0).map HockeyCrashesResponse.crashes).flatten.length = _
    rw [List.drop_zero, List.length_flatten, List.map_map]
    rfl
  · show ((List.range' 1 (cpages.length + 1 - 1)).map _).length = _
    rw [List.length_map, List.length_range']
    omega

/-- Witness for C5 on the two-page fixtures: both runs succeed, yield 3 items
(2 from page 1, 1 from page 2) and fetch exactly 2 pages. -/
theorem pagination_terminates_consistent_witness :
    (generate_groups_for_version "https://api"
        ([examplePage1, examplePage2].map Except.ok) "app" 5 1).err = none ∧
    (generate_groups_for_version "https://api"
        ([examplePage1, examplePage2].map Except.ok) "app" 5 1).items.length =
      ([examplePage1, examplePage2].map (fun resp => resp.crash_reasons.length)).sum ∧
    (generate_groups_for_version "https://api"
        ([examplePage1, examplePage2].map Except.ok) "app" 5 1).requests.length =
      ([examplePage1, examplePage2] : List HockeyCrashGroupsResponse).length ∧
    (generate_in_group "https://api"
        ([exampleCrashPage1, exampleCrashPage2].map Except.ok) "app" 5 9 1).err = none ∧
    (generate_in_group "https://api"
        ([exampleCrashPage1, exampleCrashPage2].map Except.ok) "app" 5 9 1).items.length =
      ([exampleCrashPage1, exampleCrashPage2].map (fun resp => resp.crashes.length)).sum ∧
    (generate_in_group "https://api"
        ([exampleCrashPage1, exampleCrashPage2].map Except.ok) "app" 5 9 1).requests.length =
      ([exampleCrashPage1, exampleCrashPage2] : List HockeyCrashesResponse).length :=
  pagination_terminates_consistent "https://api" "app" 5 9
    [examplePage1, examplePage2] [exampleCrashPage1, exampleCrashPage2]
    (by simp) (by decide) (by simp) (by decide)

/-- C3, counterexample: with `max_count = 0` (a natural number), the claim
"returns exactly the first `k` items" fails.  The `for` loop appends the
first pulled item before checking `len(groups) >= max_count`, so on a
one-page fixture with one group the call returns that one group — not the
first 0 items — and it fetches page 1 even though 0 fetches are needed for 0
items. -/
theorem groups_max_count_zero_counterexample :
    (groups_for_version "https://api" exampleSingleServer "app" 5 (some 0)).1 =
      .ok [exampleGroup] ∧
    (generate_groups_for_version "https://api" exampleSingleServer "app" 5 1).items.take 0 =
      [] ∧
    ([exampleGroup] : List HockeyCrashGroup) ≠ [] ∧
    (groups_for_version "https://api" exampleSingleServer "app" 5 (some 0)).2.length = 1 := by
  have hf : fetchPage exampleSingleServer 1 = Except.ok exampleSinglePage := rfl
  have hbk : (takeUntilCount (some 0) ([] : List HockeyCrashGroup)
      exampleSinglePage.crash_reasons).2 = true := rfl
  refine ⟨?_, rfl, by simp, ?_⟩
  · unfold groups_for_version
    rw [groups_loop_broke hf hbk]
    rfl
  · unfold groups_for_version
    rw [groups_loop_broke hf hbk]
    rfl

/-- C3 (amended): for every `k ≥ 1` and every fixture whose lazy run
completes without error, `groups_for_version` with `max_count = k` returns
exactly the first `k` items of `generate_groups_for_version`'s sequence (all
of them when fewer than `k` exist), and performs exactly the number of page
fetches needed to produce those `k` items (`pagesNeeded`: the least `m` whose
first `m` pages carry at least `k` items, or all pages).  The amendment
excludes `k = 0`, where the source appends one item before checking the
bound. -/
theorem groups_for_version_max_count_take (api_base app_id : String)
    (app_version_id : Int)
    (server : List (Except FetchError HockeyCrashGroupsResponse)) (k : Nat)
    (hk : 1 ≤ k)
    (hok : (generate_groups_for_version api_base server app_id app_version_id 1).err =
      none) :
    (groups_for_version api_base server app_id app_version_id (some k)).1 =
      .ok ((generate_groups_for_version api_base server app_id app_version_id 1).items.take
        k) ∧
    (groups_for_version api_base server app_id app_version_id (some k)).2.length =
      pagesNeeded (groupsPageItemCounts server 1) k := by
  have h := groups_loop_some api_base server app_id app_version_id k 1 []
    (by simpa using hk) hok
  unfold groups_for_version
  simpa using h

/-- Witness for the amended C3: on the two-page fixture (2 items on page 1, 1
on page 2), `max_count = 2` returns the first two items and fetches exactly
one page. -/
theorem groups_for_version_max_count_take_witness :
    (groups_for_version "https://api" exampleGroupsServer "app" 5 (some 2)).1 =
      .ok ((generate_groups_for_version "https://api" exampleGroupsServer "app" 5
        1).items.take 2) ∧
    (groups_for_version "https://api" exampleGroupsServer "app" 5 (some 2)).2.length =
      pagesNeeded (groupsPageItemCounts exampleGroupsServer 1) 2 := by
  have hf1 : fetchPage exampleGroupsServer 1 = Except.ok examplePage1 := rfl
  have hf2 : fetchPage exampleGroupsServer 2 = Except.ok examplePage2 := rfl
  exact groups_for_version_max_count_take "https://api" "app" 5 exampleGroupsServer 2
    (by decide)
    (by rw [gen_groups_continue hf1 (by decide), gen_groups_stop hf2 (by decide)])
